import Mathlib

/-!
# Verification of the gesture recognition and mode state machine

Shallow embedding of the core of the gesture-control repository
(src/gesture_controller/gesture_recognizer.py, src/config.py, and the
auto-mode-switch preamble of src/main.py), together with theorems that
settle the frozen claims about it.

Conventions of the embedding:
* Python floats are modelled as rationals (ℚ).
* Gesture names and modes are strings, exactly as in the Python source.
* The source compares Euclidean distances, i.e. square roots of sums of
  squares of rationals.  Since `Real.sqrt` is monotone on nonnegative
  arguments, every comparison `sqrt a < sqrt b` (and `sqrt a < c` for
  `c ≥ 0`) in the source is equivalent to the comparison of the squares;
  the embedding therefore carries squared distances throughout and
  compares against squared bounds.  `Option ℚ` models a possibly
  infinite squared distance, `none` standing for the float `inf`
  returned on a length mismatch.
* `time.time()` is passed in explicitly as a rational `now`.
-/

namespace GestureControl

/-! ## Configuration constants (src/config.py) -/

/-- FINGER_STATE_THRESHOLD = 0.015 -/
def FINGER_STATE_THRESHOLD : ℚ := 3/200

/-- GESTURE_COOLDOWN = 0.5 -/
def GESTURE_COOLDOWN : ℚ := 1/2

/-- BROWSER_GESTURE_COOLDOWN = 0.5 -/
def BROWSER_GESTURE_COOLDOWN : ℚ := 1/2

/-- MUSIC_GESTURE_COOLDOWN = 0.3 -/
def MUSIC_GESTURE_COOLDOWN : ℚ := 3/10

/-- The GESTURES template table, in Python dict insertion order. -/
def GESTURES : List (String × List ℚ) :=
  [("FIST",      [0, 0, 0, 0, 0]),
   ("PALM",      [1, 1, 1, 1, 1]),
   ("ONE",       [0, 1, 0, 0, 0]),
   ("TWO",       [0, 1, 1, 0, 0]),
   ("THREE",     [0, 1, 1, 1, 0]),
   ("FOUR",      [0, 1, 1, 1, 1]),
   ("ROCK",      [0, 1, 0, 0, 1]),
   ("THUMBS_UP", [1, 0, 0, 0, 0])]

/-! ## Recognizer state (GestureRecognizer.__init__) -/

/-- The mutable attributes of `GestureRecognizer` that the claims are
about.  `gestureHistory` models the deque with maxlen 5, most recent
element last. -/
structure Recognizer where
  lastGestureTime : ℚ
  cooldown : ℚ
  browserCooldown : ℚ
  musicCooldown : ℚ
  mode : String
  gestureHistory : List String
  currentGesture : Option String
  previousGesture : Option String
  deriving DecidableEq, Repr

/-- The recognizer as constructed by `__init__`. -/
def initRecognizer : Recognizer :=
  { lastGestureTime := 0
    cooldown := GESTURE_COOLDOWN
    browserCooldown := BROWSER_GESTURE_COOLDOWN
    musicCooldown := MUSIC_GESTURE_COOLDOWN
    mode := "MAIN"
    gestureHistory := []
    currentGesture := none
    previousGesture := none }

/-- Appending to a deque with maxlen `k`: append, then drop from the
front down to length `k`. -/
def dequeAppend {α : Type} (k : ℕ) (l : List α) (x : α) : List α :=
  let l2 := l ++ [x]
  l2.drop (l2.length - k)

/-! ## Classifier (the matching loop of recognize_gesture,
and _calculate_state_distance) -/

/-- `_calculate_state_distance`, carried as a squared distance;
`none` models the float `inf` returned on a length mismatch. -/
def calculate_state_distance_sq (states1 states2 : List ℚ) : Option ℚ :=
  if states1.length ≠ states2.length then none
  else some (((states1.zip states2).map (fun p => (p.1 - p.2)^2)).sum)

/-- Strict comparison of possibly-infinite squared distances
(`none` = inf; `inf < x` is false for every `x`, `d < inf` is true
for every finite `d`). -/
def optLt : Option ℚ → Option ℚ → Bool
  | some a, some b => a < b
  | some _, none => true
  | none, _ => false

/-- The squared acceptance bound: (FINGER_STATE_THRESHOLD * 5)^2. -/
def acceptBoundSq : ℚ := (FINGER_STATE_THRESHOLD * 5)^2

/-- One iteration of the template-matching loop: the accumulator is
(recognized_gesture, min_distance-squared), starting from
(None, inf). -/
def classifyStep (fingerStates : List ℚ)
    (acc : Option String × Option ℚ) (t : String × List ℚ) :
    Option String × Option ℚ :=
  let d := calculate_state_distance_sq fingerStates t.2
  if optLt d acc.2 ∧ optLt d (some acceptBoundSq) then (some t.1, d)
  else acc

/-- The raw per-frame classification: the template-matching loop of
recognize_gesture over the GESTURES table. -/
def classify (fingerStates : List ℚ) : Option String :=
  (GESTURES.foldl (classifyStep fingerStates) (none, none)).1

/-! ## Debounce and trigger policy (recognize_gesture) -/

/-- The debounce confirmation test:
len(self.gesture_history) >= 3 and
len(set(list(self.gesture_history)[-3:])) == 1. -/
def confirmedCond (l : List String) : Bool :=
  decide (3 ≤ l.length) &&
    (match l.drop (l.length - 3) with
     | [a, b, c] => decide (a = b ∧ b = c)
     | _ => false)

/-- Result of one call to recognize_gesture: the post-state, the
returned pair (gesture, is_new), and `fired`, which records whether the
return was produced by one of the trigger-policy firing branches inside
the confirmation block (the returns at the continuous-exemption,
magnitude, BROWSER, MUSIC and generic branches) as opposed to the final
fall-through return of the stored gesture. -/
structure RecogResult where
  state : Recognizer
  gesture : Option String
  isNew : Bool
  fired : Bool
  deriving DecidableEq, Repr

/-- `recognize_gesture(finger_states)` at wall-clock time `now`. -/
def recognize_gesture (s : Recognizer) (fingerStates : List ℚ) (now : ℚ) :
    RecogResult :=
  if fingerStates.isEmpty then
    ⟨s, none, false, false⟩
  else
    match classify fingerStates with
    | none =>
      -- no template matched: clear history, reset current gesture,
      -- fall through to `return self.current_gesture, False`
      let s2 := { s with gestureHistory := [], currentGesture := none }
      ⟨s2, s2.currentGesture, false, false⟩
    | some g =>
      let hist := dequeAppend 5 s.gestureHistory g
      let s1 := { s with gestureHistory := hist }
      if confirmedCond hist then
        let isNew : Bool := s1.currentGesture ≠ some g
        let s2 := { s1 with currentGesture := some g }
        if s2.mode = "MOUSE" ∧ (g = "ONE" ∨ g = "PALM") then
          ⟨s2, some g, isNew, true⟩
        else if s2.mode = "MAIN" ∧
            (g = "ONE" ∨ g = "TWO" ∨ g = "THREE" ∨ g = "FOUR") then
          if now - s2.lastGestureTime ≥ 3/10 then
            ⟨{ s2 with lastGestureTime := now }, some g, true, true⟩
          else
            ⟨s2, s2.currentGesture, false, false⟩
        else if s2.mode = "BROWSER" then
          if isNew ∨ now - s2.lastGestureTime ≥ s2.cooldown then
            ⟨{ s2 with lastGestureTime := now }, some g, isNew, true⟩
          else
            ⟨s2, s2.currentGesture, false, false⟩
        else if s2.mode = "MUSIC" then
          if isNew ∨ now - s2.lastGestureTime ≥ s2.musicCooldown then
            ⟨{ s2 with lastGestureTime := now }, some g, isNew, true⟩
          else
            ⟨s2, s2.currentGesture, false, false⟩
        else if isNew ∨ now - s2.lastGestureTime ≥ s2.cooldown then
          ⟨{ s2 with lastGestureTime := now }, some g, isNew, true⟩
        else
          ⟨s2, s2.currentGesture, false, false⟩
      else
        ⟨s1, s1.currentGesture, false, false⟩

/-! ## Mode state machine (toggle_mode) -/

/-- The elif chain of toggle_mode, used when no truthy target mode is
supplied.  A mode matching no branch is left unchanged. -/
def toggleChain (m : String) : String :=
  if m = "MAIN" then "MOUSE"
  else if m = "MOUSE" then "MAIN"
  else if m = "BROWSER" then "MAIN"
  else if m = "MUSIC" then "MAIN"
  else m

/-- `toggle_mode(current_gesture_name, target_mode)` at time `now`.
A supplied empty-string target is falsy in Python and falls through to
the elif chain. -/
def toggle_mode (s : Recognizer) (currentGestureName : Option String)
    (targetMode : Option String) (now : ℚ) : Recognizer :=
  let newMode :=
    match targetMode with
    | some t => if t = "" then toggleChain s.mode else t
    | none => toggleChain s.mode
  { s with
      mode := newMode
      currentGesture := currentGestureName
      previousGesture := none
      lastGestureTime := now + 1 }

/-! ## Trajectory detector (record_hand_position, analyze_trajectory,
recognize_dynamic_gesture) -/

/-- One entry of trajectory_history: a position with its timestamp. -/
structure TrajSample where
  x : ℚ
  y : ℚ
  t : ℚ
  deriving DecidableEq, Repr

/-- The dict returned by analyze_trajectory.  `distanceSq` carries the
square of the Euclidean distance computed by the source (see the header
note on square roots). -/
structure TrajInfo where
  direction : Option String
  distanceSq : ℚ
  delta_x : ℚ
  delta_y : ℚ
  duration : ℚ
  deriving DecidableEq, Repr

/-- The direction classification block of analyze_trajectory. -/
def directionOf (dx dy : ℚ) : Option String :=
  if |dx| > |dy| then
    if dx > 30 then some "RIGHT"
    else if dx < -30 then some "LEFT"
    else none
  else
    if dy > 30 then some "DOWN"
    else if dy < -30 then some "UP"
    else none

/-- analyze_trajectory over the trajectory_history buffer (most recent
sample last).  The final wildcard arm is unreachable: a list of length
at least 5 has both a head and a last element. -/
def analyze_trajectory (hist : List TrajSample) : Option TrajInfo :=
  if hist.length < 5 then none
  else
    match hist.head?, hist.getLast? with
    | some s0, some s1 =>
      some { direction := directionOf (s1.x - s0.x) (s1.y - s0.y)
             distanceSq := (s1.x - s0.x)^2 + (s1.y - s0.y)^2
             delta_x := s1.x - s0.x
             delta_y := s1.y - s0.y
             duration := s1.t - s0.t }
    | _, _ => none

/-- record_hand_position: append the current sample to the
trajectory_history deque (maxlen 10). -/
def record_hand_position (hist : List TrajSample) (p : TrajSample) :
    List TrajSample :=
  dequeAppend 10 hist p

/-- The body of recognize_dynamic_gesture after the position has been
recorded: swipe classification from the trajectory analysis. -/
def recognize_dynamic_core (hist : List TrajSample) : Option String :=
  match analyze_trajectory hist with
  | none => none
  | some info =>
    if info.distanceSq > 50^2 then
      match info.direction with
      | some "UP" => some "SWIPE_UP"
      | some "DOWN" => some "SWIPE_DOWN"
      | some "LEFT" => some "SWIPE_LEFT"
      | some "RIGHT" => some "SWIPE_RIGHT"
      | _ => none
    else none

/-- recognize_dynamic_gesture: record the current position, then
classify the trajectory. -/
def recognize_dynamic_gesture (hist : List TrajSample) (p : TrajSample) :
    Option String :=
  recognize_dynamic_core (record_hand_position hist p)

/-! ## The auto-mode-switch preamble of the host loop (src/main.py,
lines 136-188)

One `loopStep` models the music-detection block, then the
browser-detection block, of a single iteration of the while loop, with
the two probe results as inputs.  `currentModeVar` models the Python
local variable current_mode, which is assigned only inside the two
check blocks and read, stale, by the music-exit elif; `none` stands for
"not yet assigned" (in every real run the first iteration elapses both
check intervals, so the variable is assigned before it is first
read). -/

structure LoopState where
  recognizer : Recognizer
  lastMusicCheck : ℚ
  lastBrowserCheck : ℚ
  lastKnownMode : String
  musicOverride : Bool
  currentModeVar : Option String
  deriving DecidableEq, Repr

/-- The loop state at entry to the while loop. -/
def initLoopState : LoopState :=
  { recognizer := initRecognizer
    lastMusicCheck := 0
    lastBrowserCheck := 0
    lastKnownMode := "MAIN"
    musicOverride := false
    currentModeVar := none }

/-- The music-detection block.  On a frame where the 1s check interval
has not elapsed, the elif guard `not music_playing and current_mode ==
"MUSIC"` is evaluated with music_playing still holding the False it was
reset to at the top of the iteration, so it reduces to a test of the
stale current_mode variable. -/
def musicPhase (st : LoopState) (now : ℚ) (musicProbe : Bool) : LoopState :=
  if now - st.lastMusicCheck ≥ 1 then
    let cm := st.recognizer.mode
    let st1 := { st with lastMusicCheck := now, currentModeVar := some cm }
    if musicProbe ∧ cm ≠ "MUSIC" then
      let st2 :=
        if ¬ st1.musicOverride then
          { st1 with lastKnownMode := cm, musicOverride := true }
        else st1
      { st2 with recognizer := toggle_mode st2.recognizer none (some "MUSIC") now }
    else st1
  else
    if st.currentModeVar = some "MUSIC" then
      { st with
          musicOverride := false
          recognizer := toggle_mode st.recognizer none (some st.lastKnownMode) now
          lastKnownMode := "MAIN" }
    else st

/-- The browser-detection block, guarded by `not music_mode_override`. -/
def browserPhase (st : LoopState) (now : ℚ) (browserProbe : Bool) : LoopState :=
  if ¬ st.musicOverride then
    if now - st.lastBrowserCheck ≥ 2 then
      let cm := st.recognizer.mode
      let st1 := { st with lastBrowserCheck := now, currentModeVar := some cm }
      if browserProbe ∧ cm ≠ "BROWSER" then
        { st1 with
            lastKnownMode := cm
            recognizer := toggle_mode st1.recognizer none (some "BROWSER") now }
      else if ¬ browserProbe ∧ cm = "BROWSER" then
        { st1 with
            recognizer := toggle_mode st1.recognizer none (some st1.lastKnownMode) now
            lastKnownMode := "MAIN" }
      else st1
    else st
  else st

/-- The mode-detection preamble of one iteration of the host loop. -/
def loopStep (st : LoopState) (now : ℚ) (musicProbe browserProbe : Bool) :
    LoopState :=
  browserPhase (musicPhase st now musicProbe) now browserProbe

/-! ## Concrete runs used by the counterexamples and witnesses -/

/-- The exact ONE template as an input vector. -/
def oneVec : List ℚ := [0, 1, 0, 0, 0]

/-- The exact PALM template as an input vector. -/
def palmVec : List ℚ := [1, 1, 1, 1, 1]

/-- The exact FIST template as an input vector. -/
def fistVec : List ℚ := [0, 0, 0, 0, 0]

/-- MAIN-mode run: one frame of ONE at t = 1. -/
def mainRun1 : Recognizer := (recognize_gesture initRecognizer oneVec 1).state

/-- MAIN-mode run: a second frame of ONE at t = 2. -/
def mainRun2 : Recognizer := (recognize_gesture mainRun1 oneVec 2).state

/-- MAIN-mode run: a third frame of ONE at t = 3, which confirms ONE
and fires it. -/
def mainRun3 : Recognizer := (recognize_gesture mainRun2 oneVec 3).state

/-- MAIN-mode run with PALM: three frames at t = 1, 2, 3 confirm PALM. -/
def palmRun1 : Recognizer := (recognize_gesture initRecognizer palmVec 1).state

/-- Second PALM frame. -/
def palmRun2 : Recognizer := (recognize_gesture palmRun1 palmVec 2).state

/-- Third PALM frame: PALM is confirmed. -/
def palmRun3 : Recognizer := (recognize_gesture palmRun2 palmVec 3).state

/-- An empty-input frame right after PALM was confirmed. -/
def palmRunEmpty : RecogResult := recognize_gesture palmRun3 [] (7/2)

/-- A PALM frame after the empty-input frame. -/
def palmRunAfter : RecogResult := recognize_gesture palmRunEmpty.state palmVec 4

/-- Entering MOUSE mode from MAIN by a PALM toggle at t = 9. -/
def mouseEntry : Recognizer := toggle_mode initRecognizer (some "PALM") none 9

/-- MOUSE-mode run: FIST frames at t = 10 and t = 10.5. -/
def mouseFist1 : Recognizer := (recognize_gesture mouseEntry fistVec 10).state

/-- Second FIST frame. -/
def mouseFist2 : Recognizer := (recognize_gesture mouseFist1 fistVec (21/2)).state

/-- Third FIST frame at t = 11: FIST is confirmed and fires (new). -/
def mouseFist3 : RecogResult := recognize_gesture mouseFist2 fistVec 11

/-- Fourth FIST frame at t = 11.1, within the 0.5s cooldown. -/
def mouseFist4 : RecogResult := recognize_gesture mouseFist3.state fistVec (111/10)

/-- Host-loop run with both probes constantly true: frame at t = 1. -/
def loopTrace1 : LoopState := loopStep initLoopState 1 true true

/-- Frame at t = 1.5 (no check interval elapsed). -/
def loopTrace2 : LoopState := loopStep loopTrace1 (3/2) true true

/-- Frame at t = 2 (music check sees mode MUSIC, does nothing). -/
def loopTrace3 : LoopState := loopStep loopTrace2 2 true true

/-- Frame at t = 2.5: the stale music-exit guard fires, MUSIC is left,
then the browser check switches to BROWSER. -/
def loopTrace4 : LoopState := loopStep loopTrace3 (5/2) true true

/-- A trajectory of five samples moving 60 px right (15 px per step). -/
def rightBuf60 : List TrajSample :=
  [⟨0, 0, 0⟩, ⟨15, 0, 1⟩, ⟨30, 0, 2⟩, ⟨45, 0, 3⟩, ⟨60, 0, 4⟩]

/-- A trajectory of five samples moving 40 px right (10 px per step). -/
def rightBuf40 : List TrajSample :=
  [⟨0, 0, 0⟩, ⟨10, 0, 1⟩, ⟨20, 0, 2⟩, ⟨30, 0, 3⟩, ⟨40, 0, 4⟩]

/-- Invariant of the template-matching loop after the templates in
`seen` have been processed: either no gesture has been accepted yet and
no seen template cleared the acceptance bound, or the accumulator holds
a seen template's name together with its (finite) squared distance,
which is below the bound and not beaten strictly by any seen
template. -/
def ClassifyInv (v : List ℚ) (seen : List (String × List ℚ)) :
    Option String × Option ℚ → Prop
  | (none, none) =>
      ∀ t ∈ seen,
        optLt (calculate_state_distance_sq v t.2) (some acceptBoundSq) = false
  | (some g, some d) =>
      (∃ tmpl, (g, tmpl) ∈ seen ∧
        calculate_state_distance_sq v tmpl = some d) ∧
      d < acceptBoundSq ∧
      ∀ t ∈ seen,
        optLt (calculate_state_distance_sq v t.2) (some d) = false
  | _ => False

/-! ## Theorems -/

/-- A helper unfolding of optLt on two finite distances. -/
lemma optLt_some_some (a b : ℚ) : optLt (some a) (some b) = decide (a < b) :=
  rfl

/-- optLt with an infinite left distance is always false. -/
lemma optLt_none_left (b : Option ℚ) : optLt none b = false := by
  cases b <;> rfl

/-- One step of the matching loop preserves the invariant. -/
lemma classifyStep_inv (v : List ℚ) (seen : List (String × List ℚ))
    (acc : Option String × Option ℚ) (t : String × List ℚ)
    (h : ClassifyInv v seen acc) :
    ClassifyInv v (seen ++ [t]) (classifyStep v acc t) := by
  obtain ⟨r, m⟩ := acc
  simp only [classifyStep]
  cases hdd : calculate_state_distance_sq v t.2 with
  | none =>
    rw [if_neg (by simp [optLt_none_left])]
    match r, m, h with
    | none, none, h =>
      intro t' ht'
      rcases List.mem_append.1 ht' with hseen | hlast
      · exact h t' hseen
      · rcases List.mem_singleton.1 hlast with rfl
        rw [hdd]
        exact optLt_none_left _
    | some g0, some d0, h =>
      refine ⟨⟨h.1.choose, List.mem_append_left _ h.1.choose_spec.1,
        h.1.choose_spec.2⟩, h.2.1, ?_⟩
      intro t' ht'
      rcases List.mem_append.1 ht' with hseen | hlast
      · exact h.2.2 t' hseen
      · rcases List.mem_singleton.1 hlast with rfl
        rw [hdd]
        exact optLt_none_left _
  | some x =>
    by_cases hxb : x < acceptBoundSq
    · by_cases hxm : optLt (some x) m = true
      · rw [if_pos ⟨hxm, by rw [optLt_some_some]; exact decide_eq_true hxb⟩]
        refine ⟨⟨t.2, List.mem_append_right _ (List.mem_singleton.2 rfl), hdd⟩,
          hxb, ?_⟩
        intro t' ht'
        rcases List.mem_append.1 ht' with hseen | hlast
        · match r, m, h, hxm with
          | none, none, h, hxm =>
            have hb := h t' hseen
            cases hdd' : calculate_state_distance_sq v t'.2 with
            | none => exact optLt_none_left _
            | some y =>
              rw [hdd'] at hb
              rw [optLt_some_some] at hb ⊢
              have hyb : ¬ y < acceptBoundSq := of_decide_eq_false hb
              simp only [decide_eq_false_iff_not]
              intro hyx
              exact hyb (lt_trans hyx hxb)
          | some g0, some d0, h, hxm =>
            have hxd0 : x < d0 := of_decide_eq_true hxm
            have hb := h.2.2 t' hseen
            cases hdd' : calculate_state_distance_sq v t'.2 with
            | none => exact optLt_none_left _
            | some y =>
              rw [hdd'] at hb
              rw [optLt_some_some] at hb ⊢
              have hyd0 : ¬ y < d0 := of_decide_eq_false hb
              simp only [decide_eq_false_iff_not]
              intro hyx
              exact hyd0 (lt_trans hyx hxd0)
        · rcases List.mem_singleton.1 hlast with rfl
          rw [hdd, optLt_some_some]
          simp
      · rw [if_neg (fun hh => hxm hh.1)]
        match r, m, h, hxm with
        | none, none, h, hxm => exact absurd rfl hxm
        | some g0, some d0, h, hxm =>
          refine ⟨⟨h.1.choose, List.mem_append_left _ h.1.choose_spec.1,
            h.1.choose_spec.2⟩, h.2.1, ?_⟩
          intro t' ht'
          rcases List.mem_append.1 ht' with hseen | hlast
          · exact h.2.2 t' hseen
          · rcases List.mem_singleton.1 hlast with rfl
            rw [optLt_some_some] at hxm
            rw [hdd, optLt_some_some]
            simpa using hxm
    · rw [if_neg (fun hh => hxb (of_decide_eq_true
        ((optLt_some_some x acceptBoundSq) ▸ hh.2)))]
      match r, m, h with
      | none, none, h =>
        intro t' ht'
        rcases List.mem_append.1 ht' with hseen | hlast
        · exact h t' hseen
        · rcases List.mem_singleton.1 hlast with rfl
          rw [hdd, optLt_some_some]
          simpa using hxb
      | some g0, some d0, h =>
        refine ⟨⟨h.1.choose, List.mem_append_left _ h.1.choose_spec.1,
          h.1.choose_spec.2⟩, h.2.1, ?_⟩
        intro t' ht'
        rcases List.mem_append.1 ht' with hseen | hlast
        · exact h.2.2 t' hseen
        · rcases List.mem_singleton.1 hlast with rfl
          rw [hdd, optLt_some_some]
          simp only [decide_eq_false_iff_not]
          intro hxd0
          exact hxb (lt_trans hxd0 h.2.1)

/-- The matching loop, folded over any template list, preserves the
invariant. -/
lemma classify_foldl_inv (v : List ℚ) :
    ∀ (ts seen : List (String × List ℚ)) (acc : Option String × Option ℚ),
      ClassifyInv v seen acc →
      ClassifyInv v (seen ++ ts) (ts.foldl (classifyStep v) acc) := by
  intro ts
  induction ts with
  | nil => intro seen acc h; simpa using h
  | cons t ts ih =>
    intro seen acc h
    have h2 := ih (seen ++ [t]) _ (classifyStep_inv v seen acc t h)
    simpa [List.append_assoc] using h2

/-- The invariant holds for the full GESTURES table. -/
lemma classify_inv (v : List ℚ) :
    ClassifyInv v GESTURES (GESTURES.foldl (classifyStep v) (none, none)) := by
  have h0 : ClassifyInv v ([] : List (String × List ℚ)) (none, none) :=
    fun t ht => absurd ht (List.not_mem_nil t)
  simpa using classify_foldl_inv v GESTURES [] (none, none) h0

/-- Characterization of a successful classification: the returned name
belongs to a template whose finite squared distance is below the
acceptance bound and is not strictly beaten by any template. -/
lemma classify_eq_some (v : List ℚ) (g : String) (h : classify v = some g) :
    ∃ d, (∃ tmpl, (g, tmpl) ∈ GESTURES ∧
            calculate_state_distance_sq v tmpl = some d) ∧
         d < acceptBoundSq ∧
         ∀ t ∈ GESTURES,
           optLt (calculate_state_distance_sq v t.2) (some d) = false := by
  have hinv := classify_inv v
  unfold classify at h
  rcases hfold : GESTURES.foldl (classifyStep v) (none, none) with ⟨r, m⟩
  rw [hfold] at hinv h
  simp only at h
  subst h
  cases m with
  | none => exact hinv.elim
  | some d => exact ⟨d, hinv.1, hinv.2.1, hinv.2.2⟩

/-- Every template in the GESTURES table is a 5-element vector. -/
lemma GESTURES_template_length :
    ∀ t ∈ GESTURES, (t.2 : List ℚ).length = 5 := by
  decide

/-- Claim C1, counterexample.  After PALM is confirmed, a frame with
empty finger-state input yields None but does NOT clear the gesture
history and does NOT reset the confirmed gesture; the following PALM
re-confirmation therefore reports is_new = False, not is_new = True as
the claim requires. -/
theorem empty_input_keeps_history_cex :
    palmRun3.currentGesture = some "PALM" ∧
    palmRunEmpty.gesture = none ∧
    palmRunEmpty.state.gestureHistory = ["PALM", "PALM", "PALM"] ∧
    palmRunEmpty.state.currentGesture = some "PALM" ∧
    palmRunAfter.gesture = some "PALM" ∧
    palmRunAfter.isNew = false := by
  refine ⟨?_, ?_, ?_, ?_, ?_, ?_⟩ <;> with_unfolding_all rfl

/-- Claim C1, amended.  An empty finger-state input returns (None,
False) and leaves the recognizer state completely unchanged; only a
non-empty input that matches no template within the acceptance bound
clears the entire history, resets the confirmed gesture to None, and
yields None for that frame. -/
theorem null_classification_spec (s : Recognizer) (v : List ℚ) (now : ℚ) :
    recognize_gesture s [] now = ⟨s, none, false, false⟩ ∧
    (v ≠ [] → classify v = none →
      recognize_gesture s v now =
        ⟨{ s with gestureHistory := [], currentGesture := none },
         none, false, false⟩) := by
  constructor
  · rfl
  · intro hv hc
    have hne : v.isEmpty = false := by
      cases v with
      | nil => exact absurd rfl hv
      | cons a t => rfl
    simp [recognize_gesture, hne, hc]

/-- Witness for null_classification_spec at a concrete state and a
concrete 3-element vector (arity mismatch, so no template matches). -/
theorem null_classification_spec_witness :
    recognize_gesture initRecognizer [] 5 = ⟨initRecognizer, none, false, false⟩ ∧
    recognize_gesture initRecognizer [1, 1, 1] 5 =
      ⟨{ initRecognizer with gestureHistory := [], currentGesture := none },
       none, false, false⟩ :=
  ⟨(null_classification_spec initRecognizer [1, 1, 1] 5).1,
   (null_classification_spec initRecognizer [1, 1, 1] 5).2
     (by decide) (by decide)⟩

/-- A vector with a non-null classification is nonempty: the empty
vector mismatches the arity of every template, so no template ever
accepts it. -/
lemma classify_nonempty {v : List ℚ} {g : String} (hg : classify v = some g) :
    v.isEmpty = false := by
  cases v with
  | nil =>
    rw [show classify ([] : List ℚ) = none from by with_unfolding_all rfl] at hg
    exact absurd hg (by simp)
  | cons a t => rfl

/-- The deque bound: appending with maxlen 5 never produces a history
longer than 5. -/
lemma dequeAppend_five_le {α : Type} (l : List α) (x : α) :
    (dequeAppend 5 l x).length ≤ 5 := by
  simp [dequeAppend]
  omega

/-- Claim C2, counterexample.  In MAIN mode, after ONE has been
confirmed at t = 3 (stored confirmed gesture = ONE), holding ONE to
t = 4 re-fires through the magnitude branch with is_new = True, even
though the gesture does not differ from the stored confirmed
gesture. -/
theorem magnitude_is_new_cex :
    mainRun3.currentGesture = some "ONE" ∧
    (recognize_gesture mainRun3 oneVec 4).gesture = some "ONE" ∧
    (recognize_gesture mainRun3 oneVec 4).fired = true ∧
    (recognize_gesture mainRun3 oneVec 4).isNew = true := by
  refine ⟨?_, ?_, ?_, ?_⟩ <;> with_unfolding_all rfl

/-- Claim C2, amended.  On a non-null classification: a non-firing
frame always reports is_new = False; a firing frame reports
is_new = (confirmed gesture differs from the previously stored
confirmed gesture) in every branch EXCEPT the MAIN-mode magnitude
branch (ONE..FOUR), which hard-codes is_new = True even when the
gesture is unchanged. -/
theorem is_new_flag_spec (s : Recognizer) (v : List ℚ) (now : ℚ)
    (g : String) (hg : classify v = some g) :
    ((recognize_gesture s v now).fired = false →
      (recognize_gesture s v now).isNew = false) ∧
    ((recognize_gesture s v now).fired = true →
      (s.mode = "MAIN" ∧ (g = "ONE" ∨ g = "TWO" ∨ g = "THREE" ∨ g = "FOUR") →
        (recognize_gesture s v now).isNew = true) ∧
      (¬(s.mode = "MAIN" ∧ (g = "ONE" ∨ g = "TWO" ∨ g = "THREE" ∨ g = "FOUR")) →
        ((recognize_gesture s v now).isNew = true ↔
          s.currentGesture ≠ some g))) := by
  have hne : v.isEmpty = false := classify_nonempty hg
  simp only [recognize_gesture, hne, Bool.false_eq_true, if_false, hg]
  by_cases hconf : confirmedCond (dequeAppend 5 s.gestureHistory g) = true
  · simp only [hconf, if_true]
    by_cases h1 : s.mode = "MOUSE" ∧ (g = "ONE" ∨ g = "PALM")
    · have hnm : ¬(s.mode = "MAIN" ∧
          (g = "ONE" ∨ g = "TWO" ∨ g = "THREE" ∨ g = "FOUR")) := by
        rintro ⟨hm, -⟩
        rw [h1.1] at hm
        exact absurd hm (by decide)
      simp [h1, hnm]
    · rw [if_neg h1]
      by_cases h2 : s.mode = "MAIN" ∧
          (g = "ONE" ∨ g = "TWO" ∨ g = "THREE" ∨ g = "FOUR")
      · rw [if_pos h2]
        by_cases h2t : now - s.lastGestureTime ≥ 3/10
        · simp [h2t, h2]
        · simp [h2t]
      · rw [if_neg h2]
        by_cases h3 : s.mode = "BROWSER"
        · rw [if_pos h3]
          split
          · simp [h2]
          · simp
        · rw [if_neg h3]
          by_cases h4 : s.mode = "MUSIC"
          · rw [if_pos h4]
            split
            · simp [h2]
            · simp
          · rw [if_neg h4]
            split
            · simp [h2]
            · simp
  · simp [hconf]

/-- Witness for is_new_flag_spec: the third frame of the concrete
MAIN-mode ONE run fires with is_new = True (the magnitude branch). -/
theorem is_new_flag_spec_witness :
    (recognize_gesture mainRun2 oneVec 3).isNew = true :=
  ((is_new_flag_spec mainRun2 oneVec 3 "ONE"
      (by with_unfolding_all rfl)).2 (by with_unfolding_all rfl)).1
    ⟨by with_unfolding_all rfl, Or.inl rfl⟩

/-- Claim C3.  On every non-null raw classification: the classification
is appended to the bounded history (capacity 5, oldest evicted, so the
history never exceeds 5 entries); the gesture is confirmed (stored as
the current gesture) exactly when the history has at least 3 entries
whose last 3 are pairwise identical; on frames where that condition
fails the call returns the previously confirmed gesture unchanged with
is_new = False, firing nothing and touching no other state. -/
theorem debounce_confirmation_spec (s : Recognizer) (v : List ℚ) (now : ℚ)
    (g : String) (hg : classify v = some g) :
    (recognize_gesture s v now).state.gestureHistory =
      dequeAppend 5 s.gestureHistory g ∧
    (dequeAppend 5 s.gestureHistory g).length ≤ 5 ∧
    (confirmedCond (dequeAppend 5 s.gestureHistory g) = true →
      (recognize_gesture s v now).state.currentGesture = some g) ∧
    (confirmedCond (dequeAppend 5 s.gestureHistory g) = false →
      recognize_gesture s v now =
        ⟨{ s with gestureHistory := dequeAppend 5 s.gestureHistory g },
         s.currentGesture, false, false⟩) := by
  have hne : v.isEmpty = false := classify_nonempty hg
  refine ⟨?_, dequeAppend_five_le s.gestureHistory g, ?_, ?_⟩
  · simp only [recognize_gesture, hne, Bool.false_eq_true, if_false, hg]
    split
    · split_ifs <;> rfl
    · rfl
  · intro hconf
    simp only [recognize_gesture, hne, Bool.false_eq_true, if_false, hg,
      hconf, if_true]
    split_ifs <;> rfl
  · intro hconf
    simp only [recognize_gesture, hne, Bool.false_eq_true, if_false, hg,
      hconf]

/-- Witness for debounce_confirmation_spec: the second frame of the
concrete PALM run (history has only 2 entries, so PALM is not yet
confirmed and the previously confirmed value None is returned). -/
theorem debounce_confirmation_spec_witness :
    recognize_gesture palmRun1 palmVec 2 =
      ⟨{ palmRun1 with gestureHistory := dequeAppend 5 palmRun1.gestureHistory "PALM" },
       palmRun1.currentGesture, false, false⟩ :=
  (debounce_confirmation_spec palmRun1 palmVec 2 "PALM"
      (by with_unfolding_all rfl)).2.2.2 (by with_unfolding_all rfl)

/-- Cooldown suppression: when the stored confirmed gesture already
equals the frame's classification and the frame time lies strictly
before the stored cooldown timestamp, no cooldown-gated branch fires
(the MOUSE-mode continuous gestures ONE/PALM are the only
exception). -/
lemma grace_suppression (s : Recognizer) (v : List ℚ) (g : String)
    (now2 : ℚ) (hg : classify v = some g) (hcur : s.currentGesture = some g)
    (hlt : now2 < s.lastGestureTime)
    (hcool : 0 ≤ s.cooldown) (hmcool : 0 ≤ s.musicCooldown)
    (hnc : ¬(s.mode = "MOUSE" ∧ (g = "ONE" ∨ g = "PALM"))) :
    (recognize_gesture s v now2).fired = false ∧
    (recognize_gesture s v now2).isNew = false := by
  have hne : v.isEmpty = false := classify_nonempty hg
  simp only [recognize_gesture, hne, Bool.false_eq_true, if_false, hg]
  by_cases hconf : confirmedCond (dequeAppend 5 s.gestureHistory g) = true
  · simp only [hconf, if_true]
    rw [if_neg hnc]
    have ht1 : ¬(now2 - s.lastGestureTime ≥ 3/10) := by linarith
    have ht2 : ¬(now2 - s.lastGestureTime ≥ s.cooldown) := by linarith
    have ht3 : ¬(now2 - s.lastGestureTime ≥ s.musicCooldown) := by linarith
    by_cases h2 : s.mode = "MAIN" ∧
        (g = "ONE" ∨ g = "TWO" ∨ g = "THREE" ∨ g = "FOUR")
    · rw [if_pos h2, if_neg ht1]
      simp
    · rw [if_neg h2]
      by_cases h3 : s.mode = "BROWSER"
      · rw [if_pos h3]
        rw [if_neg (by simp [hcur, ht2])]
        simp
      · rw [if_neg h3]
        by_cases h4 : s.mode = "MUSIC"
        · rw [if_pos h4]
          rw [if_neg (by simp [hcur, ht3])]
          simp
        · rw [if_neg h4]
          rw [if_neg (by simp [hcur, ht2])]
          simp
  · simp [hconf]

/-- Claim C4, counterexample.  After PALM has been confirmed (history
[PALM, PALM, PALM]), a manual toggle_mode transition leaves the
debounce history exactly as it was — it is NOT cleared (the source
keeps it deliberately: "保留历史记录"). -/
theorem toggle_keeps_history_cex :
    palmRun3.gestureHistory = ["PALM", "PALM", "PALM"] ∧
    (toggle_mode palmRun3 (some "PALM") none 5).gestureHistory =
      ["PALM", "PALM", "PALM"] := by
  refine ⟨?_, ?_⟩ <;> with_unfolding_all rfl

/-- Claim C4, amended.  On every toggle_mode transition (manual or
automatic, with or without an explicit target): the debounce history is
PRESERVED, not cleared; the confirmed-gesture field is seeded with the
gesture argument that triggered the transition; last_fire_time is
pushed to transition time + 1.0 s (a grace window within the documented
1.0-2.0 s range); consequently the seeded gesture, re-confirmed at any
time within the grace window, reports is_new = False and fires no
cooldown-gated action (only the MOUSE-mode continuous gestures
ONE/PALM, which the host only acts on when new, bypass this). -/
theorem toggle_mode_transition_spec (s : Recognizer) (gname : Option String)
    (target : Option String) (now : ℚ)
    (hcool : 0 ≤ s.cooldown) (hmcool : 0 ≤ s.musicCooldown) :
    (toggle_mode s gname target now).gestureHistory = s.gestureHistory ∧
    (toggle_mode s gname target now).currentGesture = gname ∧
    (toggle_mode s gname target now).lastGestureTime = now + 1 ∧
    (∀ (v : List ℚ) (g : String) (now2 : ℚ), classify v = some g →
      gname = some g → now2 < now + 1 →
      ¬((toggle_mode s gname target now).mode = "MOUSE" ∧
        (g = "ONE" ∨ g = "PALM")) →
      (recognize_gesture (toggle_mode s gname target now) v now2).fired = false ∧
      (recognize_gesture (toggle_mode s gname target now) v now2).isNew = false) := by
  refine ⟨rfl, rfl, rfl, ?_⟩
  intro v g now2 hg hgn hlt hnc
  exact grace_suppression (toggle_mode s gname target now) v g now2 hg
    (by simp [toggle_mode, hgn]) (by simpa [toggle_mode] using hlt)
    (by simpa [toggle_mode] using hcool) (by simpa [toggle_mode] using hmcool)
    hnc

/-- Witness for toggle_mode_transition_spec: entering MOUSE mode from
MAIN by a FIST-triggered toggle at t = 0; a FIST frame at t = 0.5
(inside the grace window) does not fire. -/
theorem toggle_mode_transition_spec_witness :
    (toggle_mode initRecognizer (some "FIST") none 0).gestureHistory =
      ([] : List String) ∧
    (recognize_gesture (toggle_mode initRecognizer (some "FIST") none 0)
      fistVec (1/2)).fired = false := by
  have h := toggle_mode_transition_spec initRecognizer (some "FIST") none 0
    (by with_unfolding_all decide) (by with_unfolding_all decide)
  exact ⟨h.1, (h.2.2.2 fistVec "FIST" (1/2) (by with_unfolding_all rfl) rfl
    (by norm_num) (by with_unfolding_all decide)).1⟩

/-- Claim C5, counterexample.  Passing an unrecognized target mode to
toggle_mode does not raise: the state machine silently adopts the
unrecognized string as the new mode. -/
theorem toggle_mode_invalid_target_cex :
    (toggle_mode initRecognizer none (some "UNKNOWN_MODE") 0).mode =
      "UNKNOWN_MODE" := by
  with_unfolding_all rfl

/-- Claim C5, amended.  toggle_mode performs no validation of the
target mode: any non-empty target string, recognized or not, is
silently adopted as the new mode (the function is total and never
fails). -/
theorem toggle_mode_no_validation (s : Recognizer) (gname : Option String)
    (t : String) (now : ℚ) (ht : t ≠ "") :
    (toggle_mode s gname (some t) now).mode = t := by
  simp [toggle_mode, ht]

/-- Witness for toggle_mode_no_validation at a concrete unrecognized
target. -/
theorem toggle_mode_no_validation_witness :
    (toggle_mode initRecognizer none (some "BOGUS") 0).mode = "BOGUS" :=
  toggle_mode_no_validation initRecognizer none "BOGUS" 0 (by decide)

/-- Claim C6, counterexample.  Enter MOUSE mode by a PALM toggle at
t = 9; FIST frames at t = 10, 10.5, 11 confirm FIST and fire it (new
gesture); holding FIST to t = 11.1, within the 0.5 s cooldown, FIST is
the confirmed gesture of the frame but does NOT fire — so FIST, though
mapped to toggle_mode in the MOUSE table, is not exempt from the
cooldown. -/
theorem mouse_fist_not_continuous_cex :
    mouseEntry.mode = "MOUSE" ∧
    mouseFist3.gesture = some "FIST" ∧
    mouseFist3.fired = true ∧
    mouseFist4.gesture = some "FIST" ∧
    mouseFist4.fired = false := by
  refine ⟨?_, ?_, ?_, ?_, ?_⟩ <;> with_unfolding_all rfl

/-- Claim C6, amended.  In MOUSE mode, exactly the gestures ONE and
PALM are continuous: whenever either is the confirmed gesture of the
frame, recognize_gesture fires it, regardless of cooldown or grace
window (the cooldown clock is not even consulted or updated); FIST
follows the generic new-gesture-or-cooldown policy. -/
theorem mouse_continuous_exemption (s : Recognizer) (v : List ℚ) (now : ℚ)
    (g : String) (hmode : s.mode = "MOUSE") (hg : classify v = some g)
    (hcont : g = "ONE" ∨ g = "PALM")
    (hconf : confirmedCond (dequeAppend 5 s.gestureHistory g) = true) :
    (recognize_gesture s v now).gesture = some g ∧
    (recognize_gesture s v now).fired = true ∧
    (recognize_gesture s v now).state.lastGestureTime = s.lastGestureTime := by
  have hne : v.isEmpty = false := classify_nonempty hg
  simp [recognize_gesture, hne, hg, hconf, hmode]
  simp only [if_pos hcont]
  simp

/-- Witness for mouse_continuous_exemption: ONE held in MOUSE mode
fires even at a time far before the stored cooldown timestamp. -/
theorem mouse_continuous_exemption_witness :
    (recognize_gesture
      { initRecognizer with
          mode := "MOUSE", gestureHistory := ["ONE", "ONE"],
          currentGesture := some "ONE", lastGestureTime := 100 }
      oneVec 0).fired = true :=
  (mouse_continuous_exemption
    { initRecognizer with
        mode := "MOUSE", gestureHistory := ["ONE", "ONE"],
        currentGesture := some "ONE", lastGestureTime := 100 }
    oneVec 0 "ONE" rfl (by with_unfolding_all rfl) (Or.inl rfl)
    (by with_unfolding_all rfl)).2.1

/-- Claim C7: the run of the host loop in which both probes report true
on every frame (frames at t = 1, 1.5, 2, 2.5).  The machine first
enters MUSIC (and not BROWSER), but at t = 2.5 — with the music probe
still true — the stale music-exit guard fires, MUSIC is abandoned, and
the browser check then switches the machine into BROWSER. -/
theorem music_priority_violation_run :
    loopTrace1.recognizer.mode = "MUSIC" ∧
    loopTrace3.recognizer.mode = "MUSIC" ∧
    loopTrace4.recognizer.mode = "BROWSER" := by
  refine ⟨?_, ?_, ?_⟩ <;> with_unfolding_all rfl

set_option maxHeartbeats 2000000 in
/-- Claim C10.  The stored browser_cooldown value is never consulted:
changing it changes neither the returned (gesture, is_new) pair, nor
the firing decision, nor any other component of the post-state. -/
theorem browser_cooldown_unused (s : Recognizer) (c : ℚ) (v : List ℚ)
    (now : ℚ) :
    recognize_gesture { s with browserCooldown := c } v now =
      ⟨{ (recognize_gesture s v now).state with browserCooldown := c },
       (recognize_gesture s v now).gesture,
       (recognize_gesture s v now).isNew,
       (recognize_gesture s v now).fired⟩ := by
  obtain ⟨t1, cd, bc, mc, m, h, cg, pg⟩ := s
  cases hv : v.isEmpty
  · cases hc : classify v
    · simp [recognize_gesture, hv, hc]
    · simp only [recognize_gesture, hv, hc]
      dsimp only
      split_ifs <;> rfl
  · simp [recognize_gesture, hv]

/-- Claim C8.  The classifier accepts only a template of minimum
distance and only when that distance is strictly below
FINGER_STATE_THRESHOLD * 5 (squared bound acceptBoundSq): it yields no
match for the empty input, no match when the input's arity differs from
every template's (such distances are infinite and never match), and no
match when no template clears the bound; a returned name always belongs
to a template whose finite distance is below the bound and is not
strictly beaten by any other template; and the exact input
[0, 0, 0, 0, 0] always classifies as FIST. -/
theorem classifier_matching_spec :
    classify [] = none ∧
    classify [0, 0, 0, 0, 0] = some "FIST" ∧
    (∀ v : List ℚ, v.length ≠ 5 → classify v = none) ∧
    (∀ (v : List ℚ) (g : String), classify v = some g →
      ∃ d, (∃ tmpl, (g, tmpl) ∈ GESTURES ∧
              calculate_state_distance_sq v tmpl = some d) ∧
           d < acceptBoundSq ∧
           ∀ t ∈ GESTURES,
             optLt (calculate_state_distance_sq v t.2) (some d) = false) ∧
    (∀ v : List ℚ,
      (∀ t ∈ GESTURES,
        optLt (calculate_state_distance_sq v t.2) (some acceptBoundSq) =
          false) →
      classify v = none) := by
  refine ⟨by with_unfolding_all rfl, by with_unfolding_all rfl, ?_, ?_, ?_⟩
  · intro v hv
    cases hcv : classify v with
    | none => rfl
    | some g =>
      obtain ⟨d, ⟨tmpl, hmem, hdist⟩, -, -⟩ := classify_eq_some v g hcv
      have hlen : tmpl.length = 5 := GESTURES_template_length (g, tmpl) hmem
      unfold calculate_state_distance_sq at hdist
      rw [if_pos (by rw [hlen]; exact hv)] at hdist
      exact absurd hdist (by simp)
  · exact classify_eq_some
  · intro v hnone
    cases hcv : classify v with
    | none => rfl
    | some g =>
      obtain ⟨d, ⟨tmpl, hmem, hdist⟩, hdb, -⟩ := classify_eq_some v g hcv
      have hb := hnone (g, tmpl) hmem
      dsimp only at hb
      rw [hdist, optLt_some_some] at hb
      exact absurd hdb (of_decide_eq_false hb)

/-- Witness for classifier_matching_spec: a 3-element input has the
wrong arity and is never matched. -/
theorem classifier_matching_spec_witness :
    classify [0, 0, 0] = none :=
  classifier_matching_spec.2.2.1 [0, 0, 0] (by with_unfolding_all decide)

/-- The direction block yields a direction exactly when the
dominant-axis component of the displacement strictly exceeds 30. -/
lemma directionOf_isSome (dx dy : ℚ) :
    (directionOf dx dy).isSome = true ↔ 30 < max |dx| |dy| := by
  unfold directionOf
  rcases le_or_lt |dx| |dy| with hle | hlt
  · rw [if_neg (not_lt.2 hle), max_eq_right hle]
    by_cases h1 : dy > 30
    · simp only [if_pos h1, Option.isSome_some, true_iff]
      exact lt_abs.2 (Or.inl h1)
    · rw [if_neg h1]
      by_cases h2 : dy < -30
      · simp only [if_pos h2, Option.isSome_some, true_iff]
        exact lt_abs.2 (Or.inr (by linarith))
      · simp only [if_neg h2, Option.isSome_none, Bool.false_eq_true,
          false_iff, not_lt]
        exact abs_le.2 ⟨by linarith, by linarith⟩
  · rw [if_pos hlt, max_eq_left (le_of_lt hlt)]
    by_cases h1 : dx > 30
    · simp only [if_pos h1, Option.isSome_some, true_iff]
      exact lt_abs.2 (Or.inl h1)
    · rw [if_neg h1]
      by_cases h2 : dx < -30
      · simp only [if_pos h2, Option.isSome_some, true_iff]
        exact lt_abs.2 (Or.inr (by linarith))
      · simp only [if_neg h2, Option.isSome_none, Bool.false_eq_true,
          false_iff, not_lt]
        exact abs_le.2 ⟨by linarith, by linarith⟩

/-- Any direction the block yields is one of the four compass names. -/
lemma directionOf_cases (dx dy : ℚ) (s : String)
    (h : directionOf dx dy = some s) :
    s = "UP" ∨ s = "DOWN" ∨ s = "LEFT" ∨ s = "RIGHT" := by
  unfold directionOf at h
  split_ifs at h <;> simp at h <;> tauto

/-- On a buffer of at least 5 samples, analyze_trajectory returns the
record computed from the oldest and newest samples. -/
lemma analyze_trajectory_eq (hist : List TrajSample) (s0 s1 : TrajSample)
    (h0 : hist.head? = some s0) (h1 : hist.getLast? = some s1)
    (hlen : ¬ hist.length < 5) :
    analyze_trajectory hist =
      some { direction := directionOf (s1.x - s0.x) (s1.y - s0.y)
             distanceSq := (s1.x - s0.x)^2 + (s1.y - s0.y)^2
             delta_x := s1.x - s0.x
             delta_y := s1.y - s0.y
             duration := s1.t - s0.t } := by
  unfold analyze_trajectory
  rw [if_neg hlen, h0, h1]

/-- Claim C9.  Trajectory analysis yields a direction exactly when at
least 5 samples are buffered and the dominant-axis component (the
larger of the absolute displacements) strictly exceeds 30 px; the swipe
wrapper yields a SWIPE classification exactly when additionally the
squared total displacement strictly exceeds 50^2 = 2500; concretely, a
60 px net-horizontal buffer yields SWIPE_RIGHT and a 40 px one yields
nothing. -/
theorem trajectory_swipe_spec :
    (∀ (hist : List TrajSample) (s0 s1 : TrajSample),
      hist.head? = some s0 → hist.getLast? = some s1 →
      ((Option.bind (analyze_trajectory hist) TrajInfo.direction).isSome =
          true ↔
        (5 ≤ hist.length ∧ 30 < max |s1.x - s0.x| |s1.y - s0.y|))) ∧
    (∀ (hist : List TrajSample) (s0 s1 : TrajSample),
      hist.head? = some s0 → hist.getLast? = some s1 →
      ((recognize_dynamic_core hist).isSome = true ↔
        (5 ≤ hist.length ∧ 30 < max |s1.x - s0.x| |s1.y - s0.y| ∧
          2500 < (s1.x - s0.x)^2 + (s1.y - s0.y)^2))) ∧
    recognize_dynamic_core rightBuf60 = some "SWIPE_RIGHT" ∧
    recognize_dynamic_core rightBuf40 = none := by
  refine ⟨?_, ?_, by with_unfolding_all rfl, by with_unfolding_all rfl⟩
  · intro hist s0 s1 h0 h1
    by_cases hlen : hist.length < 5
    · unfold analyze_trajectory
      rw [if_pos hlen]
      simp only [Option.bind, Option.isSome_none, Bool.false_eq_true,
        false_iff, not_and]
      intro h5
      omega
    · rw [analyze_trajectory_eq hist s0 s1 h0 h1 hlen]
      dsimp only [Option.bind]
      rw [directionOf_isSome]
      exact ⟨fun hh => ⟨not_lt.1 hlen, hh⟩, fun hh => hh.2⟩
  · intro hist s0 s1 h0 h1
    by_cases hlen : hist.length < 5
    · unfold recognize_dynamic_core analyze_trajectory
      rw [if_pos hlen]
      simp only [Option.isSome_none, Bool.false_eq_true, false_iff, not_and]
      intro h5
      omega
    · unfold recognize_dynamic_core
      rw [analyze_trajectory_eq hist s0 s1 h0 h1 hlen]
      dsimp only
      by_cases hdist : (s1.x - s0.x)^2 + (s1.y - s0.y)^2 > 50^2
      · rw [if_pos hdist]
        cases hdir : directionOf (s1.x - s0.x) (s1.y - s0.y) with
        | none =>
          simp only [Option.isSome_none, Bool.false_eq_true, false_iff]
          rintro ⟨-, hmax, -⟩
          have := (directionOf_isSome (s1.x - s0.x) (s1.y - s0.y)).2 hmax
          rw [hdir] at this
          exact absurd this (by simp)
        | some s =>
          have hsome : (30 : ℚ) <
              max |s1.x - s0.x| |s1.y - s0.y| :=
            (directionOf_isSome (s1.x - s0.x) (s1.y - s0.y)).1
              (by rw [hdir]; rfl)
          rcases directionOf_cases _ _ s hdir with rfl | rfl | rfl | rfl <;>
            · simp only [Option.isSome_some, true_iff]
              exact ⟨not_lt.1 hlen, hsome, by linarith [hdist]⟩
      · rw [if_neg hdist]
        simp only [Option.isSome_none, Bool.false_eq_true, false_iff]
        rintro ⟨-, -, h2500⟩
        exact hdist (by linarith)

/-- Witness for trajectory_swipe_spec: the 60 px buffer passes both
gates of the swipe wrapper. -/
theorem trajectory_swipe_spec_witness :
    (recognize_dynamic_core rightBuf60).isSome = true :=
  (trajectory_swipe_spec.2.1 rightBuf60 ⟨0, 0, 0⟩ ⟨60, 0, 4⟩
    (by with_unfolding_all rfl) (by with_unfolding_all rfl)).2
    ⟨by with_unfolding_all decide, by with_unfolding_all decide,
     by with_unfolding_all decide⟩

end GestureControl
